import Mathlib

/-!
Shallow embedding of `src/fadis_press_vulkano_incomplete/src/main.rs`, a
single-file Vulkan bootstrap program: instance creation, surface creation,
physical-device selection, and logical-device/queue creation.

Third-party handles (vulkano / winit) are modelled by the data the program
actually inspects: a queue family is its two capability bits, a surface
capability query is a fallible record of formats and present modes, and the
extension set is the boolean-flag record the program intersects.  Panics
(`expect` / `panic!` / `unwrap`) are modelled as `Except String` errors whose
messages are the static part of the panic message in the source (dynamic
`{:?}` payloads are elided).
-/

/-- Capability bits of one queue family, as the program queries them:
`queue_family.supports_graphics()` and `surface.is_supported(queue_family)`
(the surface is fixed for the whole program, so the latter is a per-family
bit). -/
structure QueueFamily where
  supports_graphics : Bool
  surface_support : Bool
deriving DecidableEq

/-- Result of `surface.capabilities(device)`: the program looks only at
`supported_formats` and `present_modes`; their elements are abstract. -/
structure Capabilities where
  supported_formats : List Nat
  present_modes : List Nat
deriving DecidableEq

/-- The `DeviceExtensions` flag record.  The program only ever sets
`khr_swapchain`; one further representative flag keeps `intersection`
non-trivial. -/
structure DeviceExtensions where
  khr_swapchain : Bool
  khr_display_swapchain : Bool
deriving DecidableEq, BEq

/-- `DeviceExtensions::none()`: every flag off. -/
def DeviceExtensions.none : DeviceExtensions :=
  { khr_swapchain := false, khr_display_swapchain := false }

/-- `DeviceExtensions::intersection`: pointwise AND of the flags. -/
def DeviceExtensions.intersection (a b : DeviceExtensions) : DeviceExtensions :=
  { khr_swapchain := a.khr_swapchain && b.khr_swapchain,
    khr_display_swapchain := a.khr_display_swapchain && b.khr_display_swapchain }

/-- The extensions the program requests (main.rs lines 44-47):
`khr_swapchain: true, ..DeviceExtensions::none()`. -/
def device_extensions : DeviceExtensions :=
  { DeviceExtensions.none with khr_swapchain := true }

deriving instance DecidableEq for Except

/-- A physical device, as the data the program reads off it:
its supported extension set, the (fallible) surface capability query result,
its queue family list, and whether `Device::new` on it succeeds (the latter
models the fallibility of the third-party driver call). -/
structure PhysicalDevice where
  supported_extensions : DeviceExtensions
  capabilities : Except String Capabilities
  queue_families : List QueueFamily
  device_new_ok : Bool
deriving DecidableEq

/-- The selector's inner queue-family loop (main.rs lines 70-82): sets
`supports_graphics` / `present_family` flags, breaking as soon as both are
set. -/
def queueFamilyScan : List QueueFamily → Bool → Bool → Bool × Bool
  | [], supports_graphics, present_family => (supports_graphics, present_family)
  | queue_family :: rest, supports_graphics, present_family =>
    let sg := if queue_family.supports_graphics then true else supports_graphics
    let pf := if queue_family.surface_support then true else present_family
    if sg && pf then (sg, pf) else queueFamilyScan rest sg pf

/-- The same loop with the `break` removed: scans every family. -/
def queueFamilyScanFull : List QueueFamily → Bool → Bool → Bool × Bool
  | [], supports_graphics, present_family => (supports_graphics, present_family)
  | queue_family :: rest, supports_graphics, present_family =>
    queueFamilyScanFull rest
      (if queue_family.supports_graphics then true else supports_graphics)
      (if queue_family.surface_support then true else present_family)

/-- The selector's per-device predicate (main.rs lines 51-84).  The
capability query is performed unconditionally (before the final conjunction),
and its failure panics: `expect("failed to get surface capabilities")`. -/
def deviceSuitable (d : PhysicalDevice) : Except String Bool :=
  let available_extensions := d.supported_extensions
  let is_swapchain_supported :=
    available_extensions.intersection device_extensions == device_extensions
  match d.capabilities with
  | Except.error _ => Except.error "failed to get surface capabilities"
  | Except.ok capabilities =>
    let is_swapchain_adequate :=
      !capabilities.supported_formats.isEmpty && capabilities.present_modes.head?.isSome
    let scan := queueFamilyScan d.queue_families false false
    Except.ok (is_swapchain_supported && is_swapchain_adequate && scan.1 && scan.2)

/-- `PhysicalDevice::enumerate(..).find(|d| ...)` (main.rs lines 50-85):
linear scan in enumeration order; the predicate itself may panic. -/
def findSuitableDevice : List PhysicalDevice → Except String (Option PhysicalDevice)
  | [] => Except.ok Option.none
  | d :: rest =>
    match deviceSuitable d with
    | Except.error e => Except.error e
    | Except.ok true => Except.ok (Option.some d)
    | Except.ok false => findSuitableDevice rest

/-- The whole selector including the final
`.expect("failed to get suitable device")` (main.rs line 86). -/
def selectPhysicalDevice (devices : List PhysicalDevice) : Except String PhysicalDevice :=
  match findSuitableDevice devices with
  | Except.error e => Except.error e
  | Except.ok (Option.some d) => Except.ok d
  | Except.ok Option.none => Except.error "failed to get suitable device"

/-- The `i as i32` cast of the (usize-valued) enumeration counter: wrapping
truncation to signed 32 bits, so positions `≥ 2^31` come out negative. -/
def i32OfNat (i : Nat) : Int := ((i : Int) + 2 ^ 31) % 2 ^ 32 - 2 ^ 31

/-- The builder's index re-scan (main.rs lines 95-107): `graphics_index` /
`present_index` start at `-1`, are overwritten by `i as i32` (the current
position truncated to i32) whenever the family supports the role, and the
loop breaks once both are non-negative. -/
def queueIndexScan : List QueueFamily → Nat → Int → Int → Int × Int
  | [], _, graphics_index, present_index => (graphics_index, present_index)
  | queue_family :: rest, i, graphics_index, present_index =>
    let g := if queue_family.supports_graphics then i32OfNat i else graphics_index
    let p := if queue_family.surface_support then i32OfNat i else present_index
    if 0 ≤ g ∧ 0 ≤ p then (g, p) else queueIndexScan rest (i + 1) g p

/-- The pair `(graphics_index, present_index)` the builder resolves for the
selected device. -/
def resolveQueueIndices (pd : PhysicalDevice) : Int × Int :=
  queueIndexScan pd.queue_families 0 (-1) (-1)

/-- The `i as usize` cast of the (i32-valued) index on a 64-bit target:
two's-complement wrap-around, so `-1` becomes `2^64 - 1`. -/
def usizeOfI32 (i : Int) : Nat := (i % (2 ^ 64)).toNat

/-- The `HashSet<usize>` built from `[graphics_index, present_index]` and then
iterated (main.rs lines 111-115).  A `HashSet`'s iteration order is
unspecified, so for the two-element case the order is an oracle parameter
`swapped`. -/
def queueFamiliesIndices (graphics_index present_index : Int) (swapped : Bool) : List Nat :=
  let gu := usizeOfI32 graphics_index
  let pu := usizeOfI32 present_index
  if gu = pu then [gu] else if swapped then [pu, gu] else [gu, pu]

/-- `let queue_priority = 1.0;` (main.rs line 110). -/
def queue_priority : ℚ := 1

/-- The `(queue family, priority)` pairs passed to `Device::new`
(main.rs lines 115-120); a family is represented by its index. -/
def queue_families_request (pd : PhysicalDevice) (swapped : Bool) : List (Nat × ℚ) :=
  (queueFamiliesIndices (resolveQueueIndices pd).1 (resolveQueueIndices pd).2 swapped).map
    (fun i => (i, queue_priority))

/-- A queue handle: it is bound to a queue family index on the device. -/
structure Queue where
  family_index : Nat
deriving DecidableEq

/-- `Device::new` (main.rs lines 122-127): on success yields one queue per
requested `(family, priority)` pair, in request order.  Failure of the
third-party call is modelled by the device's `device_new_ok` bit. -/
def Device.new (pd : PhysicalDevice) (queue_families : List (Nat × ℚ)) : Option (List Queue) :=
  if pd.device_new_ok then Option.some (queue_families.map (fun f => { family_index := f.1 }))
  else Option.none

/-- The whole logical-device builder block (main.rs lines 90-132): resolve
indices, deduplicate via the hash set, look each index up with
`queue_families().nth(i).unwrap()`, create the device
(`expect("failed to create logical device")`), then
`queues.next().unwrap()` for graphics and
`queues.next().unwrap_or_else(|| graphics_queue.clone())` for present. -/
def buildLogicalDevice (pd : PhysicalDevice) (swapped : Bool) : Except String (Queue × Queue) :=
  let gp := resolveQueueIndices pd
  let indices := queueFamiliesIndices gp.1 gp.2 swapped
  if indices.all (fun i => i < pd.queue_families.length) then
    match Device.new pd (queue_families_request pd swapped) with
    | Option.none => Except.error "failed to create logical device"
    | Option.some queues =>
      match queues with
      | [] => Except.error "called Option::unwrap on a None value"
      | graphics_queue :: rest => Except.ok (graphics_queue, rest.headD graphics_queue)
  else Except.error "called Option::unwrap on a None value"

/-- The successive setup stages of `main`. -/
inductive Stage
  | instanceCreation
  | surfaceCreation
  | deviceSelection
  | logicalDeviceCreation
deriving DecidableEq

/-- The order in which `main` attempts its stages. -/
def stageOrder : List Stage :=
  [Stage.instanceCreation, Stage.surfaceCreation, Stage.deviceSelection,
   Stage.logicalDeviceCreation]

/-- The external conditions `main` runs under: whether `Instance::new` and
`build_vk_surface` succeed, the enumerated device list, and the hash-set
iteration-order oracle. -/
structure World where
  instance_ok : Bool
  surface_ok : Bool
  devices : List PhysicalDevice
  hash_order_swapped : Bool

/-- Which stage a given panic message names. -/
def messageStage (e : String) : Option Stage :=
  if e = "failed to create Vulkan instance" then Option.some Stage.instanceCreation
  else if e = "failed to create window surface" then Option.some Stage.surfaceCreation
  else if e = "failed to get surface capabilities" then Option.some Stage.deviceSelection
  else if e = "failed to get suitable device" then Option.some Stage.deviceSelection
  else if e = "failed to create logical device" then Option.some Stage.logicalDeviceCreation
  else Option.none

/-- The whole of `main` (main.rs lines 12-133) as a function of the external
world: each stage either panics with its message (aborting the program, so no
later stage runs) or continues.  The first component records the stages that
were started, in order. -/
def runMain (w : World) : List Stage × Except String (Queue × Queue) :=
  if !w.instance_ok then
    ([Stage.instanceCreation], Except.error "failed to create Vulkan instance")
  else if !w.surface_ok then
    ([Stage.instanceCreation, Stage.surfaceCreation],
     Except.error "failed to create window surface")
  else
    match selectPhysicalDevice w.devices with
    | Except.error e =>
      ([Stage.instanceCreation, Stage.surfaceCreation, Stage.deviceSelection], Except.error e)
    | Except.ok pd =>
      match buildLogicalDevice pd w.hash_order_swapped with
      | Except.error e => (stageOrder, Except.error e)
      | Except.ok queues => (stageOrder, Except.ok queues)

/-- The boolean value of the per-device predicate when the capability query
succeeds (pure restatement of `deviceSuitable`'s `ok` branch). -/
def suitableB (d : PhysicalDevice) : Bool :=
  match d.capabilities with
  | Except.error _ => false
  | Except.ok capabilities =>
    (d.supported_extensions.intersection device_extensions == device_extensions)
      && (!capabilities.supported_formats.isEmpty && capabilities.present_modes.head?.isSome)
      && (queueFamilyScan d.queue_families false false).1
      && (queueFamilyScan d.queue_families false false).2

/-- The four conditions of the selector predicate, stated as the spec states
them: the required extension (khr_swapchain) is supported, the capability
query succeeds with at least one format and one present mode, and some queue
family supports graphics resp. presentation. -/
def SuitableSpec (d : PhysicalDevice) : Prop :=
  d.supported_extensions.khr_swapchain = true ∧
  (∃ c, d.capabilities = Except.ok c ∧
    c.supported_formats ≠ [] ∧ c.present_modes ≠ []) ∧
  (∃ qf ∈ d.queue_families, qf.supports_graphics = true) ∧
  (∃ qf ∈ d.queue_families, qf.surface_support = true)

/-- A device with one queue family supporting both graphics and presentation,
the swapchain extension, and a non-trivial capability record: it passes every
selector predicate. -/
def devBoth : PhysicalDevice :=
  { supported_extensions := { khr_swapchain := true, khr_display_swapchain := false },
    capabilities := Except.ok { supported_formats := [0], present_modes := [0] },
    queue_families := [{ supports_graphics := true, surface_support := true }],
    device_new_ok := true }

/-- A suitable device whose family 0 is graphics-only and whose family 1
supports both roles: the index re-scan overwrites `graphics_index` at
position 1 before breaking. -/
def devOverwrite : PhysicalDevice :=
  { supported_extensions := { khr_swapchain := true, khr_display_swapchain := false },
    capabilities := Except.ok { supported_formats := [0], present_modes := [0] },
    queue_families :=
      [{ supports_graphics := true, surface_support := false },
       { supports_graphics := true, surface_support := true }],
    device_new_ok := true }

/-- A suitable device with a graphics-only family 0 and a present-only
family 1: the builder must request two distinct families. -/
def devSplit : PhysicalDevice :=
  { supported_extensions := { khr_swapchain := true, khr_display_swapchain := false },
    capabilities := Except.ok { supported_formats := [0], present_modes := [0] },
    queue_families :=
      [{ supports_graphics := true, surface_support := false },
       { supports_graphics := false, surface_support := true }],
    device_new_ok := true }

/-- A device that passes the extension check but whose capability query
reports zero present modes. -/
def devNoPresentModes : PhysicalDevice :=
  { supported_extensions := { khr_swapchain := true, khr_display_swapchain := false },
    capabilities := Except.ok { supported_formats := [0], present_modes := [] },
    queue_families := [{ supports_graphics := true, surface_support := true }],
    device_new_ok := true }

/-- A world in which instance and surface creation succeed but no physical
device is enumerated. -/
def emptyWorld : World :=
  { instance_ok := true, surface_ok := true, devices := [], hash_order_swapped := false }

/-! ## Properties of the selector's queue-family scan -/

theorem queueFamilyScan_eq (fams : List QueueFamily) : ∀ sg pf : Bool,
    queueFamilyScan fams sg pf =
      (sg || fams.any (fun qf => qf.supports_graphics),
       pf || fams.any (fun qf => qf.surface_support)) := by
  induction fams with
  | nil => intro sg pf; simp [queueFamilyScan]
  | cons qf rest ih =>
    intro sg pf
    cases hg : qf.supports_graphics <;> cases hp : qf.surface_support <;>
      cases sg <;> cases pf <;> simp [queueFamilyScan, hg, hp, ih]

theorem queueFamilyScanFull_eq (fams : List QueueFamily) : ∀ sg pf : Bool,
    queueFamilyScanFull fams sg pf =
      (sg || fams.any (fun qf => qf.supports_graphics),
       pf || fams.any (fun qf => qf.surface_support)) := by
  induction fams with
  | nil => intro sg pf; simp [queueFamilyScanFull]
  | cons qf rest ih =>
    intro sg pf
    cases hg : qf.supports_graphics <;> cases hp : qf.surface_support <;>
      cases sg <;> cases pf <;> simp [queueFamilyScanFull, hg, hp, ih]

/-- C9: the selector's inner queue-family scan that breaks once both flags are
set computes the same two booleans as the full scan over all families, namely
whether a graphics-supporting family and a present-supporting family each
exist. -/
theorem C9_short_circuit_scan_eq_full (fams : List QueueFamily) :
    queueFamilyScan fams false false = queueFamilyScanFull fams false false ∧
    queueFamilyScan fams false false =
      (fams.any (fun qf => qf.supports_graphics),
       fams.any (fun qf => qf.surface_support)) := by
  rw [queueFamilyScan_eq, queueFamilyScanFull_eq]
  simp

/-! ## The selector predicate, split into its stated conditions -/

theorem intersection_beq_device_extensions (a : DeviceExtensions) :
    (a.intersection device_extensions == device_extensions) = a.khr_swapchain := by
  cases a with
  | mk ks kd => cases ks <;> cases kd <;> decide

theorem deviceSuitable_eq_ok (d : PhysicalDevice) (c : Capabilities)
    (h : d.capabilities = Except.ok c) : deviceSuitable d = Except.ok (suitableB d) := by
  unfold deviceSuitable suitableB
  rw [h]

theorem deviceSuitable_error_msg (d : PhysicalDevice) (e : String)
    (h : deviceSuitable d = Except.error e) : e = "failed to get surface capabilities" := by
  unfold deviceSuitable at h
  cases hc : d.capabilities with
  | error e' => rw [hc] at h; simp only [Except.error.injEq] at h; exact h.symm
  | ok c => rw [hc] at h; simp at h

theorem suitableB_iff (d : PhysicalDevice) : suitableB d = true ↔ SuitableSpec d := by
  unfold suitableB SuitableSpec
  cases hc : d.capabilities with
  | error e => simp [hc]
  | ok c =>
    rw [queueFamilyScan_eq]
    simp only [intersection_beq_device_extensions, Bool.and_eq_true, Bool.not_eq_eq_eq_not,
      Bool.false_or, List.any_eq_true, hc, Except.ok.injEq]
    constructor
    · rintro ⟨⟨⟨hext, hfmt, hpm⟩, hg⟩, hp⟩
      refine ⟨hext, ⟨c, rfl, ?_, ?_⟩, ?_, ?_⟩
      · simpa using hfmt
      · simpa [← List.head?_isSome] using hpm
      · simpa using hg
      · simpa using hp
    · rintro ⟨hext, ⟨c', hc', hfmt, hpm⟩, hg, hp⟩
      obtain rfl : c = c' := by simpa using hc'
      refine ⟨⟨⟨hext, by simpa using hfmt, ?_⟩, by simpa using hg⟩, by simpa using hp⟩
      simpa [List.head?_isSome] using hpm

/-! ## The selector as a first-match linear scan -/

theorem find?_first_of_eq_some {α : Type} (p : α → Bool) :
    ∀ (l : List α) (a : α), l.find? p = Option.some a →
      p a = true ∧ ∃ i, ∃ hi : i < l.length, l.get ⟨i, hi⟩ = a ∧
        ∀ j (hj : j < i), p (l.get ⟨j, Nat.lt_trans hj hi⟩) = false := by
  intro l
  induction l with
  | nil => intro a h; simp [List.find?] at h
  | cons x xs ih =>
    intro a h
    cases hx : p x with
    | true =>
      rw [List.find?_cons_of_pos _ hx] at h
      obtain rfl : x = a := by simpa using h
      exact ⟨hx, 0, Nat.succ_pos _, rfl, fun j hj => absurd hj (Nat.not_lt_zero j)⟩
    | false =>
      rw [List.find?_cons_of_neg _ (by simp [hx])] at h
      obtain ⟨hpa, i, hi, hget, hbef⟩ := ih a h
      refine ⟨hpa, i + 1, Nat.succ_lt_succ hi, hget, ?_⟩
      intro j hj
      cases j with
      | zero => exact hx
      | succ j' => exact hbef j' (Nat.lt_of_succ_lt_succ hj)

theorem findSuitableDevice_eq : ∀ (devices : List PhysicalDevice),
    (∀ d ∈ devices, ∃ c, d.capabilities = Except.ok c) →
    findSuitableDevice devices = Except.ok (devices.find? suitableB) := by
  intro devices
  induction devices with
  | nil => intro _; rfl
  | cons d rest ih =>
    intro hok
    obtain ⟨c, hc⟩ := hok d (List.mem_cons_self d rest)
    unfold findSuitableDevice
    rw [deviceSuitable_eq_ok d c hc]
    cases hb : suitableB d with
    | false =>
      rw [List.find?_cons_of_neg _ (by simp [hb])]
      exact ih (fun d' hd' => hok d' (List.mem_cons_of_mem _ hd'))
    | true =>
      rw [List.find?_cons_of_pos _ hb]

theorem selectPhysicalDevice_eq (devices : List PhysicalDevice)
    (hok : ∀ d ∈ devices, ∃ c, d.capabilities = Except.ok c) :
    selectPhysicalDevice devices =
      match devices.find? suitableB with
      | Option.some d => Except.ok d
      | Option.none => Except.error "failed to get suitable device" := by
  unfold selectPhysicalDevice
  rw [findSuitableDevice_eq devices hok]
  cases devices.find? suitableB <;> rfl

/-- C1: the device selector, scanning the enumerated devices in enumeration
order, returns the first device satisfying all four predicates (khr_swapchain
supported, at least one format and one present mode, some family supports
graphics, some family supports presentation), returns a device only if it
satisfies every predicate, and returns no device when none qualifies.
(Stated under the assumption that each enumerated device's capability query
succeeds; a failing query panics instead of continuing.) -/
theorem C1_selector_first_match (devices : List PhysicalDevice)
    (hok : ∀ d ∈ devices, ∃ c, d.capabilities = Except.ok c) :
    (∀ pd, selectPhysicalDevice devices = Except.ok pd →
      SuitableSpec pd ∧
      ∃ i, ∃ hi : i < devices.length, devices.get ⟨i, hi⟩ = pd ∧
        ∀ j (hj : j < i), ¬ SuitableSpec (devices.get ⟨j, Nat.lt_trans hj hi⟩)) ∧
    ((∃ d ∈ devices, SuitableSpec d) →
      ∃ pd, selectPhysicalDevice devices = Except.ok pd) ∧
    ((∀ d ∈ devices, ¬ SuitableSpec d) →
      selectPhysicalDevice devices = Except.error "failed to get suitable device") := by
  have hsel := selectPhysicalDevice_eq devices hok
  refine ⟨?_, ?_, ?_⟩
  · intro pd hpd
    rw [hsel] at hpd
    cases hf : devices.find? suitableB with
    | none => rw [hf] at hpd; simp at hpd
    | some d =>
      rw [hf] at hpd
      obtain rfl : d = pd := by simpa using hpd
      obtain ⟨hpa, i, hi, hget, hbef⟩ := find?_first_of_eq_some suitableB devices d hf
      exact ⟨(suitableB_iff d).mp hpa, i, hi, hget,
        fun j hj hs => absurd ((suitableB_iff _).mpr hs) (by rw [hbef j hj]; simp)⟩
  · rintro ⟨d, hd, hs⟩
    have hb : suitableB d = true := (suitableB_iff d).mpr hs
    cases hf : devices.find? suitableB with
    | some d' => exact ⟨d', by rw [hsel, hf]⟩
    | none => exact absurd hb (by simpa using List.find?_eq_none.mp hf d hd)
  · intro hall
    have hnone : devices.find? suitableB = Option.none :=
      List.find?_eq_none.mpr (fun x hx hb => hall x hx ((suitableB_iff x).mp hb))
    rw [hsel, hnone]

theorem C1_selector_first_match_witness :
    (∀ d ∈ [devBoth], ∃ c, d.capabilities = Except.ok c) ∧
    ((∀ pd, selectPhysicalDevice [devBoth] = Except.ok pd →
      SuitableSpec pd ∧
      ∃ i, ∃ hi : i < [devBoth].length, [devBoth].get ⟨i, hi⟩ = pd ∧
        ∀ j (hj : j < i), ¬ SuitableSpec ([devBoth].get ⟨j, Nat.lt_trans hj hi⟩)) ∧
    ((∃ d ∈ [devBoth], SuitableSpec d) →
      ∃ pd, selectPhysicalDevice [devBoth] = Except.ok pd) ∧
    ((∀ d ∈ [devBoth], ¬ SuitableSpec d) →
      selectPhysicalDevice [devBoth] = Except.error "failed to get suitable device")) :=
  have hok : ∀ d ∈ [devBoth], ∃ c, d.capabilities = Except.ok c := by
    intro d hd
    rw [List.mem_singleton] at hd
    subst hd
    exact ⟨_, rfl⟩
  ⟨hok, C1_selector_first_match [devBoth] hok⟩

/-- C7: a device that passes the extension check but whose (successful)
surface capability query reports zero present modes is rejected, and with it
as only candidate the selector fails with no device selected. -/
theorem C7_zero_present_modes_rejected (d : PhysicalDevice) (c : Capabilities)
    (hext : d.supported_extensions.khr_swapchain = true)
    (hcap : d.capabilities = Except.ok c)
    (hpm : c.present_modes = []) :
    selectPhysicalDevice [d] = Except.error "failed to get suitable device" := by
  have hb : suitableB d = false := by
    unfold suitableB
    rw [hcap]
    simp [hpm]
  have hfind : findSuitableDevice [d] = Except.ok Option.none := by
    unfold findSuitableDevice
    rw [deviceSuitable_eq_ok d c hcap, hb]
    rfl
  unfold selectPhysicalDevice
  rw [hfind]

theorem C7_zero_present_modes_rejected_witness :
    devNoPresentModes.supported_extensions.khr_swapchain = true ∧
    devNoPresentModes.capabilities =
      Except.ok { supported_formats := [0], present_modes := [] } ∧
    ({ supported_formats := [0], present_modes := [] } : Capabilities).present_modes = [] ∧
    selectPhysicalDevice [devNoPresentModes] = Except.error "failed to get suitable device" :=
  ⟨rfl, rfl, rfl, C7_zero_present_modes_rejected devNoPresentModes _ rfl rfl rfl⟩

/-! ## Properties of the builder's index re-scan -/

theorem queueIndexScan_cons (qf : QueueFamily) (rest : List QueueFamily)
    (i : Nat) (g p : Int) :
    queueIndexScan (qf :: rest) i g p =
      if 0 ≤ (if qf.supports_graphics then i32OfNat i else g) ∧
         0 ≤ (if qf.surface_support then i32OfNat i else p)
      then ((if qf.supports_graphics then i32OfNat i else g),
            (if qf.surface_support then i32OfNat i else p))
      else queueIndexScan rest (i + 1) (if qf.supports_graphics then i32OfNat i else g)
             (if qf.surface_support then i32OfNat i else p) := rfl

theorem i32OfNat_of_lt {i : Nat} (h : i < 2 ^ 31) : i32OfNat i = ((i : Nat) : Int) := by
  unfold i32OfNat
  omega

theorem queueIndexScan_fst (fams : List QueueFamily) : ∀ (i : Nat) (g p : Int),
    i + fams.length ≤ 2 ^ 31 →
    ((queueIndexScan fams i g p).1 = g ∨
    ∃ j, ∃ hj : j < fams.length, (queueIndexScan fams i g p).1 = ((i + j : Nat) : Int) ∧
      (fams.get ⟨j, hj⟩).supports_graphics = true) := by
  induction fams with
  | nil => intro i g p _; left; rfl
  | cons qf rest ih =>
    intro i g p hbound
    rw [List.length_cons] at hbound
    have hi31 : i32OfNat i = ((i : Nat) : Int) := i32OfNat_of_lt (by omega)
    rw [queueIndexScan_cons, hi31]
    by_cases hgb : qf.supports_graphics = true
    · rw [if_pos hgb]
      by_cases hbrk : 0 ≤ (i : Int) ∧ 0 ≤ (if qf.surface_support = true then (i : Int) else p)
      · rw [if_pos hbrk]
        right
        exact ⟨0, Nat.succ_pos _, by simp, hgb⟩
      · rw [if_neg hbrk]
        rcases ih (i + 1) (i : Int) (if qf.surface_support = true then (i : Int) else p)
            (by omega) with h | ⟨j, hj, hv, hgj⟩
        · right
          exact ⟨0, Nat.succ_pos _, by simpa using h, hgb⟩
        · right
          refine ⟨j + 1, Nat.succ_lt_succ hj, ?_, hgj⟩
          rw [hv]
          omega
    · rw [if_neg hgb]
      by_cases hbrk : 0 ≤ g ∧ 0 ≤ (if qf.surface_support = true then (i : Int) else p)
      · rw [if_pos hbrk]
        left
        rfl
      · rw [if_neg hbrk]
        rcases ih (i + 1) g (if qf.surface_support = true then (i : Int) else p)
            (by omega) with h | ⟨j, hj, hv, hgj⟩
        · left; exact h
        · right
          refine ⟨j + 1, Nat.succ_lt_succ hj, ?_, hgj⟩
          rw [hv]
          omega

theorem queueIndexScan_snd (fams : List QueueFamily) : ∀ (i : Nat) (g p : Int),
    i + fams.length ≤ 2 ^ 31 →
    ((queueIndexScan fams i g p).2 = p ∨
    ∃ j, ∃ hj : j < fams.length, (queueIndexScan fams i g p).2 = ((i + j : Nat) : Int) ∧
      (fams.get ⟨j, hj⟩).surface_support = true) := by
  induction fams with
  | nil => intro i g p _; left; rfl
  | cons qf rest ih =>
    intro i g p hbound
    rw [List.length_cons] at hbound
    have hi31 : i32OfNat i = ((i : Nat) : Int) := i32OfNat_of_lt (by omega)
    rw [queueIndexScan_cons, hi31]
    by_cases hpb : qf.surface_support = true
    · rw [if_pos hpb]
      by_cases hbrk : 0 ≤ (if qf.supports_graphics = true then (i : Int) else g) ∧ 0 ≤ (i : Int)
      · rw [if_pos hbrk]
        right
        exact ⟨0, Nat.succ_pos _, by simp, hpb⟩
      · rw [if_neg hbrk]
        rcases ih (i + 1) (if qf.supports_graphics = true then (i : Int) else g) (i : Int)
            (by omega) with h | ⟨j, hj, hv, hpj⟩
        · right
          exact ⟨0, Nat.succ_pos _, by simpa using h, hpb⟩
        · right
          refine ⟨j + 1, Nat.succ_lt_succ hj, ?_, hpj⟩
          rw [hv]
          omega
    · rw [if_neg hpb]
      by_cases hbrk : 0 ≤ (if qf.supports_graphics = true then (i : Int) else g) ∧ 0 ≤ p
      · rw [if_pos hbrk]
        left
        rfl
      · rw [if_neg hbrk]
        rcases ih (i + 1) (if qf.supports_graphics = true then (i : Int) else g) p
            (by omega) with h | ⟨j, hj, hv, hpj⟩
        · left; exact h
        · right
          refine ⟨j + 1, Nat.succ_lt_succ hj, ?_, hpj⟩
          rw [hv]
          omega

theorem queueIndexScan_fst_nonneg (fams : List QueueFamily) : ∀ (i : Nat) (g p : Int),
    i + fams.length ≤ 2 ^ 31 →
    (0 ≤ g ∨ fams.any (fun qf => qf.supports_graphics) = true) →
    0 ≤ (queueIndexScan fams i g p).1 := by
  induction fams with
  | nil =>
    intro i g p _ h
    rcases h with h | h
    · exact h
    · simp at h
  | cons qf rest ih =>
    intro i g p hbound h
    rw [List.length_cons] at hbound
    have hi31 : i32OfNat i = ((i : Nat) : Int) := i32OfNat_of_lt (by omega)
    rw [queueIndexScan_cons, hi31]
    by_cases hbrk : 0 ≤ (if qf.supports_graphics then (i : Int) else g) ∧
        0 ≤ (if qf.surface_support then (i : Int) else p)
    · rw [if_pos hbrk]; exact hbrk.1
    · rw [if_neg hbrk]
      refine ih (i + 1) _ _ (by omega) ?_
      by_cases hgb : qf.supports_graphics = true
      · left
        rw [if_pos hgb]
        omega
      · rw [if_neg hgb]
        rcases h with h | h
        · left; exact h
        · right
          have h' : qf.supports_graphics = true ∨
              rest.any (fun qf => qf.supports_graphics) = true := by simpa using h
          rcases h' with hq | hr
          · exact absurd hq hgb
          · exact hr

theorem queueIndexScan_snd_nonneg (fams : List QueueFamily) : ∀ (i : Nat) (g p : Int),
    i + fams.length ≤ 2 ^ 31 →
    (0 ≤ p ∨ fams.any (fun qf => qf.surface_support) = true) →
    0 ≤ (queueIndexScan fams i g p).2 := by
  induction fams with
  | nil =>
    intro i g p _ h
    rcases h with h | h
    · exact h
    · simp at h
  | cons qf rest ih =>
    intro i g p hbound h
    rw [List.length_cons] at hbound
    have hi31 : i32OfNat i = ((i : Nat) : Int) := i32OfNat_of_lt (by omega)
    rw [queueIndexScan_cons, hi31]
    by_cases hbrk : 0 ≤ (if qf.supports_graphics then (i : Int) else g) ∧
        0 ≤ (if qf.surface_support then (i : Int) else p)
    · rw [if_pos hbrk]; exact hbrk.2
    · rw [if_neg hbrk]
      refine ih (i + 1) _ _ (by omega) ?_
      by_cases hpb : qf.surface_support = true
      · left
        rw [if_pos hpb]
        omega
      · rw [if_neg hpb]
        rcases h with h | h
        · left; exact h
        · right
          have h' : qf.surface_support = true ∨
              rest.any (fun qf => qf.surface_support) = true := by simpa using h
          rcases h' with hq | hr
          · exact absurd hq hpb
          · exact hr

/-- The resolved indices point at families that support the respective role,
whenever such families exist at all and the family count fits in an i32 (so
the `i as i32` truncation of the enumeration counter cannot wrap). -/
theorem resolveQueueIndices_spec (pd : PhysicalDevice)
    (hlen : pd.queue_families.length ≤ 2 ^ 31)
    (hg : pd.queue_families.any (fun qf => qf.supports_graphics) = true)
    (hp : pd.queue_families.any (fun qf => qf.surface_support) = true) :
    ∃ a b : Nat, ∃ ha : a < pd.queue_families.length, ∃ hb : b < pd.queue_families.length,
      resolveQueueIndices pd = ((a : Int), (b : Int)) ∧
      (pd.queue_families.get ⟨a, ha⟩).supports_graphics = true ∧
      (pd.queue_families.get ⟨b, hb⟩).surface_support = true := by
  have n1 := queueIndexScan_fst_nonneg pd.queue_families 0 (-1) (-1) (by omega) (Or.inr hg)
  have n2 := queueIndexScan_snd_nonneg pd.queue_families 0 (-1) (-1) (by omega) (Or.inr hp)
  rcases queueIndexScan_fst pd.queue_families 0 (-1) (-1) (by omega)
      with h1 | ⟨a, ha, hva, hga⟩
  · rw [h1] at n1; exact absurd n1 (by decide)
  rcases queueIndexScan_snd pd.queue_families 0 (-1) (-1) (by omega)
      with h2 | ⟨b, hb, hvb, hpb⟩
  · rw [h2] at n2; exact absurd n2 (by decide)
  refine ⟨a, b, ha, hb, ?_, hga, hpb⟩
  have hpair : resolveQueueIndices pd =
      ((queueIndexScan pd.queue_families 0 (-1) (-1)).1,
       (queueIndexScan pd.queue_families 0 (-1) (-1)).2) := rfl
  rw [hpair, hva, hvb]
  norm_num

/-! ## Consequences of passing the selector predicate -/

theorem deviceSuitable_true_any (pd : PhysicalDevice)
    (h : deviceSuitable pd = Except.ok true) :
    pd.queue_families.any (fun qf => qf.supports_graphics) = true ∧
    pd.queue_families.any (fun qf => qf.surface_support) = true := by
  cases hc : pd.capabilities with
  | error e =>
    have herr : deviceSuitable pd = Except.error "failed to get surface capabilities" := by
      unfold deviceSuitable
      rw [hc]
    rw [herr] at h
    simp at h
  | ok c =>
    rw [deviceSuitable_eq_ok pd c hc] at h
    have hs : SuitableSpec pd := (suitableB_iff pd).mp (by simpa using h)
    obtain ⟨-, -, ⟨qg, hqg, hgq⟩, ⟨qp, hqp, hpq⟩⟩ := hs
    exact ⟨List.any_eq_true.mpr ⟨qg, hqg, hgq⟩, List.any_eq_true.mpr ⟨qp, hqp, hpq⟩⟩

theorem findSuitableDevice_ok_suitable : ∀ (devices : List PhysicalDevice) (pd : PhysicalDevice),
    findSuitableDevice devices = Except.ok (Option.some pd) →
    deviceSuitable pd = Except.ok true := by
  intro devices
  induction devices with
  | nil => intro pd h; simp [findSuitableDevice] at h
  | cons d rest ih =>
    intro pd h
    unfold findSuitableDevice at h
    cases hd : deviceSuitable d with
    | error e => rw [hd] at h; simp at h
    | ok b =>
      cases b
      · rw [hd] at h
        exact ih pd (by simpa using h)
      · rw [hd] at h
        have hdp : d = pd := by simpa using h
        rw [← hdp]
        exact hd

theorem selectPhysicalDevice_ok_suitable (devices : List PhysicalDevice) (pd : PhysicalDevice)
    (h : selectPhysicalDevice devices = Except.ok pd) :
    deviceSuitable pd = Except.ok true := by
  unfold selectPhysicalDevice at h
  cases hf : findSuitableDevice devices with
  | error e => rw [hf] at h; simp at h
  | ok o =>
    cases o with
    | none => rw [hf] at h; simp at h
    | some d =>
      rw [hf] at h
      have hdp : d = pd := by simpa using h
      exact hdp ▸ findSuitableDevice_ok_suitable devices d hf

theorem findSuitableDevice_error_msg : ∀ (devices : List PhysicalDevice) (e : String),
    findSuitableDevice devices = Except.error e →
    e = "failed to get surface capabilities" := by
  intro devices
  induction devices with
  | nil => intro e h; simp [findSuitableDevice] at h
  | cons d rest ih =>
    intro e h
    unfold findSuitableDevice at h
    cases hd : deviceSuitable d with
    | error e' =>
      rw [hd] at h
      have he : e' = e := by simpa using h
      rw [← he]
      exact deviceSuitable_error_msg d e' hd
    | ok b =>
      cases b
      · rw [hd] at h
        exact ih e (by simpa using h)
      · rw [hd] at h; simp at h

theorem selectPhysicalDevice_error_msg (devices : List PhysicalDevice) (e : String)
    (h : selectPhysicalDevice devices = Except.error e) :
    e = "failed to get surface capabilities" ∨ e = "failed to get suitable device" := by
  unfold selectPhysicalDevice at h
  cases hf : findSuitableDevice devices with
  | error e' =>
    rw [hf] at h
    have he : e' = e := by simpa using h
    exact Or.inl (he ▸ findSuitableDevice_error_msg devices e' hf)
  | ok o =>
    cases o with
    | none =>
      rw [hf] at h
      right
      simpa [eq_comm] using h
    | some d => rw [hf] at h; simp at h

theorem findSuitableDevice_ok_mem : ∀ (devices : List PhysicalDevice) (pd : PhysicalDevice),
    findSuitableDevice devices = Except.ok (Option.some pd) → pd ∈ devices := by
  intro devices
  induction devices with
  | nil => intro pd h; simp [findSuitableDevice] at h
  | cons d rest ih =>
    intro pd h
    unfold findSuitableDevice at h
    cases hd : deviceSuitable d with
    | error e => rw [hd] at h; simp at h
    | ok b =>
      cases b
      · rw [hd] at h
        exact List.mem_cons_of_mem _ (ih pd (by simpa using h))
      · rw [hd] at h
        have hdp : d = pd := by simpa using h
        rw [← hdp]
        exact List.mem_cons_self d rest

theorem selectPhysicalDevice_ok_mem (devices : List PhysicalDevice) (pd : PhysicalDevice)
    (h : selectPhysicalDevice devices = Except.ok pd) : pd ∈ devices := by
  unfold selectPhysicalDevice at h
  cases hf : findSuitableDevice devices with
  | error e => rw [hf] at h; simp at h
  | ok o =>
    cases o with
    | none => rw [hf] at h; simp at h
    | some d =>
      rw [hf] at h
      have hdp : d = pd := by simpa using h
      exact hdp ▸ findSuitableDevice_ok_mem devices d hf

/-! ## The builder's re-scan: not first-match, but always a supporting index -/

/-- C2, counterexample: for the selected device `devOverwrite` (family 0
graphics-only, family 1 graphics and present), the re-scan yields
`graphics_index = 1`, not the first graphics-supporting index 0: the loop
overwrites `graphics_index` at every supporting family until both indices are
non-negative. -/
theorem C2_counterexample_not_first :
    deviceSuitable devOverwrite = Except.ok true ∧
    devOverwrite.queue_families.findIdx (fun qf => qf.supports_graphics) = 0 ∧
    resolveQueueIndices devOverwrite = (1, 1) ∧
    (resolveQueueIndices devOverwrite).1 ≠
      ((devOverwrite.queue_families.findIdx (fun qf => qf.supports_graphics) : Nat) : Int) := by
  refine ⟨by decide, by decide, by decide, by decide⟩

/-- C2, amended: for every selected physical device whose family count fits
in an i32 (so the counter truncation `i as i32` cannot wrap), the builder's
re-scan yields an index of a queue family supporting graphics and an index of
a queue family supporting presentation (the most recently scanned supporting
index at the point the loop stops), but not necessarily the first such
indices. -/
theorem C2_amended_rescan_supporting_indices (pd : PhysicalDevice)
    (hsel : deviceSuitable pd = Except.ok true)
    (hlen : pd.queue_families.length ≤ 2 ^ 31) :
    ∃ a b : Nat, ∃ ha : a < pd.queue_families.length, ∃ hb : b < pd.queue_families.length,
      resolveQueueIndices pd = ((a : Int), (b : Int)) ∧
      (pd.queue_families.get ⟨a, ha⟩).supports_graphics = true ∧
      (pd.queue_families.get ⟨b, hb⟩).surface_support = true := by
  obtain ⟨hg, hp⟩ := deviceSuitable_true_any pd hsel
  exact resolveQueueIndices_spec pd hlen hg hp

theorem C2_amended_rescan_supporting_indices_witness :
    deviceSuitable devBoth = Except.ok true ∧
    devBoth.queue_families.length ≤ 2 ^ 31 ∧
    (∃ a b : Nat, ∃ ha : a < devBoth.queue_families.length,
      ∃ hb : b < devBoth.queue_families.length,
      resolveQueueIndices devBoth = ((a : Int), (b : Int)) ∧
      (devBoth.queue_families.get ⟨a, ha⟩).supports_graphics = true ∧
      (devBoth.queue_families.get ⟨b, hb⟩).surface_support = true) :=
  ⟨by decide, by decide,
    C2_amended_rescan_supporting_indices devBoth (by decide) (by decide)⟩

/-- C10: for a device that passed the selector's predicate, the re-scan
leaves both indices non-negative, the `as usize` cast does not wrap (it is
plain `toNat`), and the `nth(i)` queue-family lookup succeeds for both
indices.  (The length bound reflects that the scan stores the counter in an
`i32`.) -/
theorem C10_index_cast_safe (pd : PhysicalDevice)
    (hsel : deviceSuitable pd = Except.ok true)
    (hlen : pd.queue_families.length ≤ 2 ^ 31) :
    0 ≤ (resolveQueueIndices pd).1 ∧ 0 ≤ (resolveQueueIndices pd).2 ∧
    usizeOfI32 (resolveQueueIndices pd).1 = (resolveQueueIndices pd).1.toNat ∧
    usizeOfI32 (resolveQueueIndices pd).2 = (resolveQueueIndices pd).2.toNat ∧
    (pd.queue_families.get? (usizeOfI32 (resolveQueueIndices pd).1)).isSome = true ∧
    (pd.queue_families.get? (usizeOfI32 (resolveQueueIndices pd).2)).isSome = true := by
  obtain ⟨hg, hp⟩ := deviceSuitable_true_any pd hsel
  obtain ⟨a, b, ha, hb, heq, -, -⟩ := resolveQueueIndices_spec pd hlen hg hp
  have ha64 : a < 2 ^ 64 := lt_of_lt_of_le ha (le_trans hlen (by norm_num))
  have hb64 : b < 2 ^ 64 := lt_of_lt_of_le hb (le_trans hlen (by norm_num))
  have hua : usizeOfI32 ((a : Nat) : Int) = a := by unfold usizeOfI32; omega
  have hub : usizeOfI32 ((b : Nat) : Int) = b := by unfold usizeOfI32; omega
  rw [heq]
  refine ⟨?_, ?_, ?_, ?_, ?_, ?_⟩
  · show 0 ≤ ((a : Nat) : Int)
    omega
  · show 0 ≤ ((b : Nat) : Int)
    omega
  · show usizeOfI32 ((a : Nat) : Int) = ((a : Nat) : Int).toNat
    unfold usizeOfI32
    omega
  · show usizeOfI32 ((b : Nat) : Int) = ((b : Nat) : Int).toNat
    unfold usizeOfI32
    omega
  · show (pd.queue_families.get? (usizeOfI32 ((a : Nat) : Int))).isSome = true
    rw [hua, List.get?_eq_get ha]
    rfl
  · show (pd.queue_families.get? (usizeOfI32 ((b : Nat) : Int))).isSome = true
    rw [hub, List.get?_eq_get hb]
    rfl

theorem C10_index_cast_safe_witness :
    deviceSuitable devBoth = Except.ok true ∧
    devBoth.queue_families.length ≤ 2 ^ 31 ∧
    (0 ≤ (resolveQueueIndices devBoth).1 ∧ 0 ≤ (resolveQueueIndices devBoth).2 ∧
    usizeOfI32 (resolveQueueIndices devBoth).1 = (resolveQueueIndices devBoth).1.toNat ∧
    usizeOfI32 (resolveQueueIndices devBoth).2 = (resolveQueueIndices devBoth).2.toNat ∧
    (devBoth.queue_families.get? (usizeOfI32 (resolveQueueIndices devBoth).1)).isSome = true ∧
    (devBoth.queue_families.get? (usizeOfI32 (resolveQueueIndices devBoth).2)).isSome = true) :=
  ⟨by decide, by decide, C10_index_cast_safe devBoth (by decide) (by decide)⟩

/-! ## The deduplicated queue-family request -/

theorem usizeOfI32_natCast_lt {a n : Nat} (h : a < n) : usizeOfI32 ((a : Nat) : Int) < n := by
  unfold usizeOfI32
  omega

theorem queueFamiliesIndices_cases (g p : Int) (sw : Bool) :
    (usizeOfI32 g = usizeOfI32 p ∧ queueFamiliesIndices g p sw = [usizeOfI32 g]) ∨
    (usizeOfI32 g ≠ usizeOfI32 p ∧
      (queueFamiliesIndices g p sw = [usizeOfI32 g, usizeOfI32 p] ∨
       queueFamiliesIndices g p sw = [usizeOfI32 p, usizeOfI32 g])) := by
  unfold queueFamiliesIndices
  by_cases h : usizeOfI32 g = usizeOfI32 p
  · left
    exact ⟨h, by rw [if_pos h]⟩
  · right
    refine ⟨h, ?_⟩
    rw [if_neg h]
    cases sw
    · left; simp
    · right; simp

theorem queueFamiliesIndices_mem (g p : Int) (sw : Bool) :
    ∀ x ∈ queueFamiliesIndices g p sw, x = usizeOfI32 g ∨ x = usizeOfI32 p := by
  intro x hx
  rcases queueFamiliesIndices_cases g p sw with ⟨-, hl⟩ | ⟨-, hl | hl⟩ <;>
    rw [hl] at hx <;> simp at hx <;> tauto

theorem queueFamiliesIndices_ne_nil (g p : Int) (sw : Bool) :
    queueFamiliesIndices g p sw ≠ [] := by
  rcases queueFamiliesIndices_cases g p sw with ⟨-, hl⟩ | ⟨-, hl | hl⟩ <;> rw [hl] <;> simp

theorem queue_families_request_ne_nil (pd : PhysicalDevice) (sw : Bool) :
    queue_families_request pd sw ≠ [] := by
  unfold queue_families_request
  intro h
  exact queueFamiliesIndices_ne_nil _ _ _ (List.map_eq_nil_iff.mp h)

/-- C5: the logical-device request contains exactly one (family, priority)
pair per distinct resolved index — a family serving both roles appears once —
and every requested pair carries priority exactly 1.0. -/
theorem C5_request_dedup_unit_priority (pd : PhysicalDevice) (swapped : Bool) :
    ((queue_families_request pd swapped).map Prod.fst).Nodup ∧
    (∀ pr ∈ queue_families_request pd swapped, pr.2 = queue_priority ∧ pr.2 = 1) ∧
    (∀ i : Nat, i ∈ (queue_families_request pd swapped).map Prod.fst ↔
      (i = usizeOfI32 (resolveQueueIndices pd).1 ∨
       i = usizeOfI32 (resolveQueueIndices pd).2)) := by
  unfold queue_families_request
  rcases queueFamiliesIndices_cases (resolveQueueIndices pd).1 (resolveQueueIndices pd).2 swapped
      with ⟨heq, hl⟩ | ⟨hne, hl | hl⟩ <;> rw [hl]
  · refine ⟨by simp, ?_, ?_⟩
    · intro pr hpr
      obtain ⟨x, -, rfl⟩ := List.mem_map.mp hpr
      exact ⟨rfl, rfl⟩
    · intro i
      simp only [List.map_map, List.mem_map]
      constructor
      · rintro ⟨x, hx, rfl⟩
        simp at hx
        left
        simp [hx]
      · rintro (h | h)
        · exact ⟨i, by simp [h], rfl⟩
        · exact ⟨i, by simp [h, heq], rfl⟩
  · refine ⟨?_, ?_, ?_⟩
    · simpa using hne
    · intro pr hpr
      obtain ⟨x, -, rfl⟩ := List.mem_map.mp hpr
      exact ⟨rfl, rfl⟩
    · intro i
      simp only [List.map_map, List.mem_map]
      constructor
      · rintro ⟨x, hx, rfl⟩
        simpa using hx
      · rintro (h | h)
        · exact ⟨i, by simp [h], rfl⟩
        · exact ⟨i, by simp [h], rfl⟩
  · refine ⟨?_, ?_, ?_⟩
    · simpa using (Ne.symm hne)
    · intro pr hpr
      obtain ⟨x, -, rfl⟩ := List.mem_map.mp hpr
      exact ⟨rfl, rfl⟩
    · intro i
      simp only [List.map_map, List.mem_map]
      constructor
      · rintro ⟨x, hx, rfl⟩
        have := (by simpa using hx :
          x = usizeOfI32 (resolveQueueIndices pd).2 ∨ x = usizeOfI32 (resolveQueueIndices pd).1)
        tauto
      · rintro (h | h)
        · exact ⟨i, by simp [h], rfl⟩
        · exact ⟨i, by simp [h], rfl⟩

theorem C5_request_dedup_unit_priority_witness :
    ((queue_families_request devBoth false).map Prod.fst).Nodup ∧
    (∀ pr ∈ queue_families_request devBoth false, pr.2 = queue_priority ∧ pr.2 = 1) ∧
    (∀ i : Nat, i ∈ (queue_families_request devBoth false).map Prod.fst ↔
      (i = usizeOfI32 (resolveQueueIndices devBoth).1 ∨
       i = usizeOfI32 (resolveQueueIndices devBoth).2)) :=
  C5_request_dedup_unit_priority devBoth false

/-! ## The logical-device builder -/

/-- C4: when the resolved graphics and present indices coincide (one family
serves both roles) and the family count fits in an i32 (so the counter
truncation `i as i32` cannot wrap), the builder requests exactly one queue
family and the two returned handles are the same queue: the present handle
reuses the graphics handle because only one queue was produced. -/
theorem C4_single_family_aliased (pd : PhysicalDevice) (swapped : Bool)
    (hsel : deviceSuitable pd = Except.ok true)
    (hlen : pd.queue_families.length ≤ 2 ^ 31)
    (heq : (resolveQueueIndices pd).1 = (resolveQueueIndices pd).2)
    (hok : pd.device_new_ok = true) :
    (queue_families_request pd swapped).length = 1 ∧
    ∃ q : Queue, buildLogicalDevice pd swapped = Except.ok (q, q) := by
  obtain ⟨hg, hp⟩ := deviceSuitable_true_any pd hsel
  obtain ⟨a, b, ha, hb, hre, -, -⟩ := resolveQueueIndices_spec pd hlen hg hp
  have h1 : (resolveQueueIndices pd).1 = ((a : Nat) : Int) := by rw [hre]
  have hu1 : usizeOfI32 (resolveQueueIndices pd).1 < pd.queue_families.length := by
    rw [h1]
    exact usizeOfI32_natCast_lt ha
  have hueq : usizeOfI32 (resolveQueueIndices pd).1 = usizeOfI32 (resolveQueueIndices pd).2 := by
    rw [heq]
  have hlist : queueFamiliesIndices (resolveQueueIndices pd).1 (resolveQueueIndices pd).2 swapped
      = [usizeOfI32 (resolveQueueIndices pd).1] := by
    simp only [queueFamiliesIndices]
    rw [if_pos hueq]
  have hreq : queue_families_request pd swapped =
      [(usizeOfI32 (resolveQueueIndices pd).1, queue_priority)] := by
    unfold queue_families_request
    rw [hlist]
    rfl
  have hdev : Device.new pd (queue_families_request pd swapped) =
      Option.some [{ family_index := usizeOfI32 (resolveQueueIndices pd).1 }] := by
    rw [hreq]
    unfold Device.new
    rw [hok]
    rfl
  refine ⟨by rw [hreq]; rfl, ⟨{ family_index := usizeOfI32 (resolveQueueIndices pd).1 }, ?_⟩⟩
  simp only [buildLogicalDevice]
  rw [hlist, hdev]
  rw [if_pos (by simp [hu1])]
  rfl

theorem C4_single_family_aliased_witness :
    deviceSuitable devBoth = Except.ok true ∧
    devBoth.queue_families.length ≤ 2 ^ 31 ∧
    (resolveQueueIndices devBoth).1 = (resolveQueueIndices devBoth).2 ∧
    devBoth.device_new_ok = true ∧
    ((queue_families_request devBoth false).length = 1 ∧
      ∃ q : Queue, buildLogicalDevice devBoth false = Except.ok (q, q)) :=
  ⟨by decide, by decide, by decide, rfl,
    C4_single_family_aliased devBoth false (by decide) (by decide) (by decide) rfl⟩

/-- C3 (code bug): for the suitable device `devSplit` (family 0
graphics-only, family 1 present-only) the builder does request exactly two
families, but with the hash-set iteration order reversed (`swapped = true`)
the queue returned as the graphics queue is bound to family 1, which does not
support graphics: the set-based deduplication loses the role-to-family
correspondence. -/
theorem C3_hash_order_defect :
    deviceSuitable devSplit = Except.ok true ∧
    (queue_families_request devSplit true).length = 2 ∧
    (queue_families_request devSplit false).length = 2 ∧
    buildLogicalDevice devSplit true =
      Except.ok ({ family_index := 1 }, { family_index := 0 }) ∧
    (devSplit.queue_families.get ⟨1, by decide⟩).supports_graphics = false ∧
    (devSplit.queue_families.get ⟨0, by decide⟩).supports_graphics = true := by
  refine ⟨by decide, by decide, by decide, by decide, by decide, by decide⟩

theorem buildLogicalDevice_error_msg (pd : PhysicalDevice) (sw : Bool) (e : String)
    (hsel : deviceSuitable pd = Except.ok true)
    (hlen : pd.queue_families.length ≤ 2 ^ 31)
    (h : buildLogicalDevice pd sw = Except.error e) :
    e = "failed to create logical device" := by
  obtain ⟨hg, hp⟩ := deviceSuitable_true_any pd hsel
  obtain ⟨a, b, ha, hb, hre, -, -⟩ := resolveQueueIndices_spec pd hlen hg hp
  have h1 : (resolveQueueIndices pd).1 = ((a : Nat) : Int) := by rw [hre]
  have h2 : (resolveQueueIndices pd).2 = ((b : Nat) : Int) := by rw [hre]
  have hu1 : usizeOfI32 (resolveQueueIndices pd).1 < pd.queue_families.length := by
    rw [h1]
    exact usizeOfI32_natCast_lt ha
  have hu2 : usizeOfI32 (resolveQueueIndices pd).2 < pd.queue_families.length := by
    rw [h2]
    exact usizeOfI32_natCast_lt hb
  have hcond : ((queueFamiliesIndices (resolveQueueIndices pd).1
      (resolveQueueIndices pd).2 sw).all
      (fun i => decide (i < pd.queue_families.length))) = true := by
    rw [List.all_eq_true]
    intro x hx
    rcases queueFamiliesIndices_mem _ _ _ x hx with h' | h' <;> subst h'
    · simpa using hu1
    · simpa using hu2
  simp only [buildLogicalDevice] at h
  rw [if_pos hcond] at h
  cases hok : pd.device_new_ok with
  | true =>
    have hdev : Device.new pd (queue_families_request pd sw) =
        Option.some ((queue_families_request pd sw).map
          (fun f => ({ family_index := f.1 } : Queue))) := by
      unfold Device.new
      rw [hok]
      rfl
    rw [hdev] at h
    cases hmap : (queue_families_request pd sw).map
        (fun f => ({ family_index := f.1 } : Queue)) with
    | nil => exact absurd (List.map_eq_nil_iff.mp hmap) (queue_families_request_ne_nil pd sw)
    | cons q rest =>
      rw [hmap] at h
      simp at h
  | false =>
    have hdev : Device.new pd (queue_families_request pd sw) = Option.none := by
      unfold Device.new
      rw [hok]
      rfl
    rw [hdev] at h
    simpa [eq_comm] using h

/-! ## The program as a fail-fast stage sequence -/

/-- C6: with instance and surface creation succeeding and an empty enumerated
device list, the program fails with the `failed to get suitable device`
diagnostic during device selection and never starts logical-device
creation. -/
theorem C6_empty_enumeration_fails (w : World)
    (hi : w.instance_ok = true) (hs : w.surface_ok = true) (hd : w.devices = []) :
    (runMain w).2 = Except.error "failed to get suitable device" ∧
    (runMain w).1 = [Stage.instanceCreation, Stage.surfaceCreation, Stage.deviceSelection] ∧
    Stage.logicalDeviceCreation ∉ (runMain w).1 := by
  have hsel : selectPhysicalDevice w.devices = Except.error "failed to get suitable device" := by
    rw [hd]
    rfl
  have hrun : runMain w =
      ([Stage.instanceCreation, Stage.surfaceCreation, Stage.deviceSelection],
       Except.error "failed to get suitable device") := by
    unfold runMain
    rw [hi, hs, hsel]
    rfl
  rw [hrun]
  exact ⟨rfl, rfl, by decide⟩

theorem C6_empty_enumeration_fails_witness :
    emptyWorld.instance_ok = true ∧ emptyWorld.surface_ok = true ∧ emptyWorld.devices = [] ∧
    ((runMain emptyWorld).2 = Except.error "failed to get suitable device" ∧
     (runMain emptyWorld).1 =
       [Stage.instanceCreation, Stage.surfaceCreation, Stage.deviceSelection] ∧
     Stage.logicalDeviceCreation ∉ (runMain emptyWorld).1) :=
  ⟨rfl, rfl, rfl, C6_empty_enumeration_fails emptyWorld rfl rfl rfl⟩

/-- C8: in every world, `main` attempts its stages strictly in order (the
started-stage trace is an initial segment of the stage order), attempts no
stage twice, runs all four stages exactly when it succeeds, and on failure
stops at the failing stage with a diagnostic message that names exactly that
stage (the last stage in the trace).  (Stated for worlds whose enumerated
devices each have a family count fitting in an i32, so the builder's counter
truncation `i as i32` cannot wrap.) -/
theorem C8_fail_fast_stage_order (w : World)
    (hlen : ∀ pd ∈ w.devices, pd.queue_families.length ≤ 2 ^ 31) :
    (∃ n, n ≤ 4 ∧ (runMain w).1 = stageOrder.take n) ∧
    (runMain w).1.Nodup ∧
    (∀ r, (runMain w).2 = Except.ok r → (runMain w).1 = stageOrder) ∧
    (∀ e, (runMain w).2 = Except.error e →
      ∃ s, (runMain w).1.getLast? = Option.some s ∧ messageStage e = Option.some s) := by
  cases hi : w.instance_ok with
  | false =>
    have hrun : runMain w =
        ([Stage.instanceCreation], Except.error "failed to create Vulkan instance") := by
      unfold runMain
      rw [hi]
      rfl
    rw [hrun]
    refine ⟨⟨1, by norm_num, rfl⟩, by decide, ?_, ?_⟩
    · intro r h
      simp at h
    · intro e h
      have he : e = "failed to create Vulkan instance" := by simpa [eq_comm] using h
      subst he
      exact ⟨Stage.instanceCreation, rfl, by decide⟩
  | true =>
    cases hs : w.surface_ok with
    | false =>
      have hrun : runMain w =
          ([Stage.instanceCreation, Stage.surfaceCreation],
           Except.error "failed to create window surface") := by
        unfold runMain
        rw [hi, hs]
        rfl
      rw [hrun]
      refine ⟨⟨2, by norm_num, rfl⟩, by decide, ?_, ?_⟩
      · intro r h
        simp at h
      · intro e h
        have he : e = "failed to create window surface" := by simpa [eq_comm] using h
        subst he
        exact ⟨Stage.surfaceCreation, rfl, by decide⟩
    | true =>
      cases hsel : selectPhysicalDevice w.devices with
      | error e0 =>
        have hrun : runMain w =
            ([Stage.instanceCreation, Stage.surfaceCreation, Stage.deviceSelection],
             Except.error e0) := by
          unfold runMain
          rw [hi, hs, hsel]
          rfl
        rw [hrun]
        refine ⟨⟨3, by norm_num, rfl⟩,
          by show List.Nodup [Stage.instanceCreation, Stage.surfaceCreation,
            Stage.deviceSelection]; decide, ?_, ?_⟩
        · intro r h
          simp at h
        · intro e h
          have he : e0 = e := by simpa using h
          subst he
          rcases selectPhysicalDevice_error_msg w.devices e0 hsel with h' | h' <;> subst h'
          · exact ⟨Stage.deviceSelection, rfl, by decide⟩
          · exact ⟨Stage.deviceSelection, rfl, by decide⟩
      | ok pd =>
        have hsuit := selectPhysicalDevice_ok_suitable w.devices pd hsel
        have hlenpd := hlen pd (selectPhysicalDevice_ok_mem w.devices pd hsel)
        have hstep : runMain w =
            (match buildLogicalDevice pd w.hash_order_swapped with
             | Except.error e => (stageOrder, Except.error e)
             | Except.ok queues => (stageOrder, Except.ok queues)) := by
          unfold runMain
          rw [hi, hs, hsel]
          rfl
        cases hbld : buildLogicalDevice pd w.hash_order_swapped with
        | error e0 =>
          have hrun : runMain w = (stageOrder, Except.error e0) := by
            rw [hstep, hbld]
          rw [hrun]
          refine ⟨⟨4, by norm_num, rfl⟩,
            by show stageOrder.Nodup; decide, ?_, ?_⟩
          · intro r h
            simp at h
          · intro e h
            have he : e0 = e := by simpa using h
            subst he
            have hmsg :=
              buildLogicalDevice_error_msg pd w.hash_order_swapped e0 hsuit hlenpd hbld
            subst hmsg
            exact ⟨Stage.logicalDeviceCreation, rfl, by decide⟩
        | ok qs =>
          have hrun : runMain w = (stageOrder, Except.ok qs) := by
            rw [hstep, hbld]
          rw [hrun]
          refine ⟨⟨4, by norm_num, rfl⟩,
            by show stageOrder.Nodup; decide, fun r h => rfl, ?_⟩
          intro e h
          simp at h

theorem C8_fail_fast_stage_order_witness :
    (∀ pd ∈ emptyWorld.devices, pd.queue_families.length ≤ 2 ^ 31) ∧
    (∃ n, n ≤ 4 ∧ (runMain emptyWorld).1 = stageOrder.take n) ∧
    (runMain emptyWorld).1.Nodup ∧
    (∀ r, (runMain emptyWorld).2 = Except.ok r → (runMain emptyWorld).1 = stageOrder) ∧
    (∀ e, (runMain emptyWorld).2 = Except.error e →
      ∃ s, (runMain emptyWorld).1.getLast? = Option.some s ∧ messageStage e = Option.some s) :=
  ⟨by simp [emptyWorld], C8_fail_fast_stage_order emptyWorld (by simp [emptyWorld])⟩
